import Mathlib

/-!
Shallow embedding of the DSGNR photo-sharing backend (src/backend/app.py):
the SQLite data model (users, posts, likes), the feed query `fetch_posts`,
the like toggle, registration, admin bootstrap, post removal, and the
view-formatting layer, together with theorems about the claims of the spec.

Modelling conventions:
* SQLite tables are lists of rows; `AUTOINCREMENT` ids are `max + 1`.
* `created_at` columns hold the UTC instant as a natural number (seconds);
  `ORDER BY` on the stored ISO-8601 UTC text agrees with the order on the
  underlying instants, since all stored strings come from
  `datetime.now(timezone.utc).isoformat()` and are compared lexicographically.
* The werkzeug password hash is modelled as an injective tagging function:
  only preimage equality is observable in the program.
* The filesystem under `uploads/` is a list of stored filenames.
-/

namespace DSGNR

/-- A row of the `users` table (app.py lines 245-251). -/
structure UserRow where
  id : Nat
  username : String
  password_hash : String
  is_admin : Bool
deriving DecidableEq, Repr

/-- A row of the `posts` table (app.py lines 255-262). -/
structure PostRow where
  id : Nat
  user_id : Nat
  image_path : String
  caption : String
  created_at : Nat
deriving DecidableEq, Repr

/-- A row of the `likes` table (app.py lines 267-275);
`UNIQUE (user_id, post_id)` is maintained by `add_like`'s
`INSERT OR IGNORE`. -/
structure LikeRow where
  id : Nat
  user_id : Nat
  post_id : Nat
  created_at : Nat
deriving DecidableEq, Repr

/-- The relational store: the three tables created by `create_tables`. -/
structure DB where
  users : List UserRow
  posts : List PostRow
  likes : List LikeRow
deriving DecidableEq, Repr

/-- Python's `str.strip()` with no argument: removes leading and trailing
whitespace characters. -/
def strip (s : String) : String :=
  ⟨((s.data.dropWhile Char.isWhitespace).reverse.dropWhile Char.isWhitespace).reverse⟩

/-- Models werkzeug's `generate_password_hash`: a one-way salted hash.
Only equality of preimages is observable in the program, so an injective
tagging function is a faithful model. -/
def generate_password_hash (password : String) : String :=
  "pbkdf2_sha256_hash_of:" ++ password

/-- Next `AUTOINCREMENT` id for the `users` table. -/
def nextUserId (db : DB) : Nat :=
  (db.users.map (fun u => u.id)).foldr Nat.max 0 + 1

/-- Next `AUTOINCREMENT` id for the `likes` table. -/
def nextLikeId (db : DB) : Nat :=
  (db.likes.map (fun l => l.id)).foldr Nat.max 0 + 1

/-- Embeds `user_exists` (app.py lines 301-305): `SELECT 1 FROM users WHERE username = ?`. -/
def user_exists (db : DB) (username : String) : Bool :=
  db.users.any (fun u => u.username == username)

/-- Embeds `create_user` (app.py lines 308-315): inserts a user row; the `is_admin`
column is absent from the INSERT, so it takes the schema default `0`. -/
def create_user (db : DB) (username password_hash : String) : DB :=
  { db with users := db.users ++
      [{ id := nextUserId db, username := username,
         password_hash := password_hash, is_admin := false }] }

/-- Outcome of the `register` POST handler, identified by the flash branch taken. -/
inductive RegOutcome where
  | created
  | invalidInput
  | duplicateUsername
deriving DecidableEq, Repr

/-- The `register` POST handler (app.py lines 111-126).
Line 112 strips the username; line 113 does NOT strip the password.
Python's falsiness test `not username or not password` is the
empty-string test on each. -/
def register (db : DB) (usernameRaw passwordRaw : String) : RegOutcome × DB :=
  let username := strip usernameRaw
  let password := passwordRaw
  if username = "" ∨ password = "" then
    (RegOutcome.invalidInput, db)
  else if user_exists db username then
    (RegOutcome.duplicateUsername, db)
  else
    (RegOutcome.created, create_user db username (generate_password_hash password))

/-- Number of admin rows: `SELECT COUNT(*) FROM users WHERE is_admin = 1`. -/
def countAdmins (db : DB) : Nat :=
  (db.users.filter (fun u => u.is_admin)).length

/-- Embeds `ensure_admin_exists` (app.py lines 281-293): when no admin row exists,
inserts one with the fixed username `admin`, the hash of the fixed password
`adminpass`, and `is_admin = 1`. -/
def ensure_admin_exists (db : DB) : DB :=
  if countAdmins db = 0 then
    { db with users := db.users ++
        [{ id := nextUserId db, username := "admin",
           password_hash := generate_password_hash "adminpass", is_admin := true }] }
  else db

/-- Embeds `user_has_liked` (app.py lines 427-434):
`SELECT 1 FROM likes WHERE user_id = ? AND post_id = ?`. -/
def user_has_liked (db : DB) (user_id post_id : Nat) : Bool :=
  db.likes.any (fun l => l.user_id == user_id && l.post_id == post_id)

/-- Embeds `add_like` (app.py lines 437-444): `INSERT OR IGNORE` under the
`UNIQUE (user_id, post_id)` constraint — a no-op when the pair is present. -/
def add_like (db : DB) (user_id post_id now : Nat) : DB :=
  if user_has_liked db user_id post_id then db
  else
    { db with likes := db.likes ++
        [{ id := nextLikeId db, user_id := user_id,
           post_id := post_id, created_at := now }] }

/-- Embeds `remove_like` (app.py lines 447-454):
`DELETE FROM likes WHERE user_id = ? AND post_id = ?`. -/
def remove_like (db : DB) (user_id post_id : Nat) : DB :=
  { db with likes :=
      db.likes.filter (fun l => !(l.user_id == user_id && l.post_id == post_id)) }

/-- A row of the `fetch_posts` / `fetch_post_by_id` result set:
post columns joined with the author's username and the aggregated
`like_count`. -/
structure PostView where
  id : Nat
  user_id : Nat
  image_path : String
  caption : String
  created_at : Nat
  username : String
  like_count : Nat
deriving DecidableEq, Repr

/-- The aggregate `COALESCE(COUNT(likes.id), 0)` for one post id: the live number of like
rows referencing the post. -/
def like_count (db : DB) (post_id : Nat) : Nat :=
  (db.likes.filter (fun l => l.post_id == post_id)).length

/-- One row of the `posts JOIN users` result: present exactly when the
author row exists (inner join on `posts.user_id = users.id`). -/
def postViewOf (db : DB) (p : PostRow) : Option PostView :=
  (db.users.find? (fun u => u.id == p.user_id)).map (fun u =>
    { id := p.id, user_id := p.user_id, image_path := p.image_path,
      caption := p.caption, created_at := p.created_at,
      username := u.username, like_count := like_count db p.id })

/-- The joined, grouped result set of the `fetch_posts` query before
`ORDER BY` (app.py lines 346-362). -/
def joinRows (db : DB) : List PostView :=
  db.posts.filterMap (postViewOf db)

/-- The `ORDER BY like_count DESC, posts.created_at DESC` comparison
(app.py line 343): `a` may precede `b`. -/
def byLikesLE (a b : PostView) : Prop :=
  b.like_count < a.like_count ∨
    (a.like_count = b.like_count ∧ b.created_at ≤ a.created_at)

/-- The `ORDER BY posts.created_at DESC` comparison (app.py line 342). -/
def recentLE (a b : PostView) : Prop :=
  b.created_at ≤ a.created_at

instance : DecidableRel byLikesLE := fun a b => by
  unfold byLikesLE; infer_instance

instance : DecidableRel recentLE := fun a b => by
  unfold recentLE; infer_instance

instance : IsTotal PostView byLikesLE where
  total a b := by
    unfold byLikesLE
    rcases Nat.lt_trichotomy a.like_count b.like_count with h | h | h
    · exact Or.inr (Or.inl h)
    · rcases Nat.le_total a.created_at b.created_at with h2 | h2
      · exact Or.inr (Or.inr ⟨h.symm, h2⟩)
      · exact Or.inl (Or.inr ⟨h, h2⟩)
    · exact Or.inl (Or.inl h)

instance : IsTrans PostView byLikesLE where
  trans a b c hab hbc := by
    unfold byLikesLE at hab hbc ⊢
    rcases hab with h1 | ⟨h1, h1t⟩
    · rcases hbc with h2 | ⟨h2, _⟩
      · exact Or.inl (h2.trans h1)
      · exact Or.inl (h2 ▸ h1)
    · rcases hbc with h2 | ⟨h2, h2t⟩
      · exact Or.inl (h1 ▸ h2)
      · exact Or.inr ⟨h1.trans h2, h2t.trans h1t⟩

instance : IsTotal PostView recentLE where
  total a b := Nat.le_total b.created_at a.created_at

instance : IsTrans PostView recentLE where
  trans _ _ _ hab hbc := Nat.le_trans hbc hab

/-- Embeds `fetch_posts` (app.py lines 338-363): joins posts with authors and like
counts, then orders by the clause selected from `order_map`; any sort key
other than `"likes"` falls back to `"recent"` (`order_map.get`). The sort
is modelled by Mathlib's stable insertion sort. -/
def fetch_posts (db : DB) (sort : String) : List PostView :=
  if sort = "likes" then List.insertionSort byLikesLE (joinRows db)
  else List.insertionSort recentLE (joinRows db)

/-- Embeds `fetch_post_by_id` (app.py lines 387-404): the single-post variant of
the join; `none` when the post id is absent (or its author row is missing,
because of the inner `JOIN users`). -/
def fetch_post_by_id (db : DB) (post_id : Nat) : Option PostView :=
  (db.posts.find? (fun p => p.id == post_id)).bind (postViewOf db)

/-- Outcome of the `toggle_like` POST handler. -/
inductive ToggleOutcome where
  | notFound
  | nowLiked
  | nowUnliked
deriving DecidableEq, Repr

/-- The `toggle_like` handler (app.py lines 209-224): 404-redirect when the
post is absent; otherwise reads current membership of `(user_id, post_id)`
in `likes` and removes it when present, inserts it when absent.
`now` is the UTC instant of the request. -/
def toggle_like (db : DB) (user_id post_id now : Nat) : ToggleOutcome × DB :=
  match fetch_post_by_id db post_id with
  | none => (ToggleOutcome.notFound, db)
  | some _ =>
    if user_has_liked db user_id post_id then
      (ToggleOutcome.nowUnliked, remove_like db user_id post_id)
    else
      (ToggleOutcome.nowLiked, add_like db user_id post_id now)

/-- First DELETE of `remove_post` (app.py line 410):
`DELETE FROM likes WHERE post_id = ?`. -/
def delete_likes_of_post (db : DB) (post_id : Nat) : DB :=
  { db with likes := db.likes.filter (fun l => !(l.post_id == post_id)) }

/-- Second DELETE of `remove_post` (app.py line 411):
`DELETE FROM posts WHERE id = ?`. -/
def delete_post_row (db : DB) (post_id : Nat) : DB :=
  { db with posts := db.posts.filter (fun p => !(p.id == post_id)) }

/-- Embeds `os.path.exists` over the modelled uploads directory. -/
def os_path_exists (fs : List String) (path : String) : Bool :=
  fs.contains path

/-- Embeds `remove_post` (app.py lines 407-417). Runs the two DELETEs, commits,
and only then touches the media file: when the file exists it calls
`os.remove`, whose possible OS-level failure is modelled by the
environment flag `osRemoveFails` (the raised exception propagates after
the commit, so the database rows stay deleted). When the file is absent
the removal step is skipped entirely. Returns the committed database,
the resulting filesystem, and whether an error escaped the handler. -/
def remove_post (db : DB) (fs : List String) (p : PostView)
    (osRemoveFails : Bool) : DB × List String × Bool :=
  let committed := delete_post_row (delete_likes_of_post db p.id) p.id
  if os_path_exists fs p.image_path then
    if osRemoveFails then (committed, fs, true)
    else (committed, fs.erase p.image_path, false)
  else (committed, fs, false)

/-- Embeds `get_user_liked_post_ids` (app.py lines 420-424): the single batch
query `SELECT post_id FROM likes WHERE user_id = ?`, collected into a set
(membership is all the caller observes). -/
def get_user_liked_post_ids (db : DB) (user_id : Nat) : List Nat :=
  (db.likes.filter (fun l => l.user_id == user_id)).map (fun l => l.post_id)

/-- Offset of the display timezone UTC+5:30 in seconds. `IST` (app.py
lines 22-25) is `ZoneInfo("Asia/Kolkata")` with the literal
`timedelta(hours=5, minutes=30)` fallback; both denote the fixed offset
+5:30 for every instant this application stores (all are produced by
`datetime.now`). -/
def IST_OFFSET : Nat := 19800

/-- A template-facing post dictionary built by `format_posts_for_view`;
`created_at_ist` is the wall-clock instant after `astimezone(IST)`, from
which `strftime` renders the display string. -/
structure ViewPost where
  id : Nat
  image_path : String
  caption : String
  username : String
  created_at_ist : Nat
  like_count : Nat
  liked : Bool
deriving DecidableEq, Repr

/-- Embeds `format_posts_for_view` (app.py lines 366-384). `hostLocalOffset` is
the host machine's local-timezone offset, available to the Python runtime;
`astimezone(IST)` converts to the fixed target zone and never consults it,
which the definition makes explicit by ignoring the parameter. `liked` is
set by membership of the row id in the batch-fetched `liked_ids` set. -/
def format_posts_for_view (posts : List PostView) (liked_ids : List Nat)
    (hostLocalOffset : Nat) : List ViewPost :=
  posts.map (fun row =>
    { id := row.id, image_path := row.image_path, caption := row.caption,
      username := row.username,
      created_at_ist := row.created_at + IST_OFFSET,
      like_count := row.like_count,
      liked := liked_ids.contains row.id })

/-! ### Concrete states used to exercise the theorems -/

/-- The store right after `create_tables` on a fresh file: no rows. -/
def emptyDB : DB := { users := [], posts := [], likes := [] }

/-- A store with one author, post P1 (id 1, older, 2 likes) and post P2
(id 2, newer, 3 likes). -/
def likeDB : DB :=
  { users := [{ id := 1, username := "ana", password_hash := "h", is_admin := false }],
    posts := [{ id := 1, user_id := 1, image_path := "a.png", caption := "", created_at := 100 },
              { id := 2, user_id := 1, image_path := "b.png", caption := "", created_at := 200 }],
    likes := [{ id := 1, user_id := 1, post_id := 1, created_at := 150 },
              { id := 2, user_id := 2, post_id := 1, created_at := 151 },
              { id := 3, user_id := 1, post_id := 2, created_at := 210 },
              { id := 4, user_id := 2, post_id := 2, created_at := 211 },
              { id := 5, user_id := 3, post_id := 2, created_at := 212 }] }

/-- The joined view of post P1 in `likeDB`. -/
def pv1 : PostView :=
  { id := 1, user_id := 1, image_path := "a.png", caption := "",
    created_at := 100, username := "ana", like_count := 2 }

/-- The like row of user 1 on post P2 in `likeDB`. -/
def lk3 : LikeRow := { id := 3, user_id := 1, post_id := 2, created_at := 210 }

/-- The query `SELECT COUNT(*) FROM likes WHERE user_id = ? AND post_id = ?`: the
number of like rows for one (user, post) pair. -/
def pair_like_rows (db : DB) (user_id post_id : Nat) : Nat :=
  (db.likes.filter (fun l => l.user_id == user_id && l.post_id == post_id)).length

/-! ### Theorems -/

/-- C3 counterexample: the password is not trimmed (app.py line 113), so a
whitespace-only password is accepted and a user row is created, although
the password is empty after trimming whitespace. -/
theorem register_accepts_whitespace_password :
    strip " " = "" ∧
    (register emptyDB "alice" " ").1 = RegOutcome.created ∧
    (register emptyDB "alice" " ").2.users.length = emptyDB.users.length + 1 := by
  decide

/-- C3 (amended): `register` fails with the validation error and creates no
user row whenever the username is empty after trimming whitespace or the
password is the empty string; the password is compared untrimmed. -/
theorem register_rejects_empty_fields (db : DB) (u p : String)
    (h : strip u = "" ∨ p = "") :
    (register db u p).1 = RegOutcome.invalidInput ∧ (register db u p).2 = db := by
  rcases h with h | h <;> simp [register, h]

theorem register_rejects_empty_fields_witness :
    (register emptyDB "   " "pw").1 = RegOutcome.invalidInput ∧
    (register emptyDB "   " "pw").2 = emptyDB :=
  register_rejects_empty_fields emptyDB "   " "pw" (Or.inl (by decide))

/-- C5: when no admin row exists, startup bootstrap inserts exactly one
account, with the fixed username `admin`, the hash of the fixed password
`adminpass`, and the admin flag set, so exactly one admin row exists
afterwards; when at least one admin row exists, the store is untouched. -/
theorem ensure_admin_bootstrap (db : DB) :
    (countAdmins db = 0 →
      countAdmins (ensure_admin_exists db) = 1 ∧
      (ensure_admin_exists db).users.length = db.users.length + 1 ∧
      (ensure_admin_exists db).users.filter (fun u => u.is_admin)
        = [{ id := nextUserId db, username := "admin",
             password_hash := generate_password_hash "adminpass", is_admin := true }]) ∧
    (countAdmins db ≠ 0 → ensure_admin_exists db = db) := by
  constructor
  · intro h0
    unfold ensure_admin_exists
    rw [if_pos h0]
    unfold countAdmins at h0 ⊢
    have hnil : db.users.filter (fun u => u.is_admin) = [] :=
      List.length_eq_zero.mp h0
    refine ⟨?_, by simp, ?_⟩
    · simp [List.filter_append, hnil]
    · simp [List.filter_append, hnil]
  · intro hne
    unfold ensure_admin_exists
    rw [if_neg hne]

theorem ensure_admin_bootstrap_witness :
    countAdmins emptyDB = 0 ∧
    countAdmins (ensure_admin_exists emptyDB) = 1 ∧
    (ensure_admin_exists emptyDB).users.length = emptyDB.users.length + 1 :=
  ⟨by decide, ((ensure_admin_bootstrap emptyDB).1 (by decide)).1,
    ((ensure_admin_bootstrap emptyDB).1 (by decide)).2.1⟩

/-- C7: `format_posts_for_view` renders the stored UTC instant shifted by
the fixed +5:30 offset; the host's local timezone never enters the
computation, so two hosts with different local offsets render identical
display times for the same stored rows. -/
theorem display_time_host_independent (posts : List PostView)
    (liked_ids : List Nat) (h1 h2 : Nat) :
    format_posts_for_view posts liked_ids h1 = format_posts_for_view posts liked_ids h2 ∧
    (format_posts_for_view posts liked_ids h1).map (fun v => v.created_at_ist)
      = posts.map (fun r => r.created_at + IST_OFFSET) := by
  constructor
  · rfl
  · simp [format_posts_for_view, List.map_map]

/-- C9: every user row produced by `create_user` — hence by any path of the
public `register` operation — either already existed or carries a cleared
admin flag: the INSERT omits `is_admin`, which defaults to 0. -/
theorem created_users_not_admin (db : DB) (u ph p : String) :
    (∀ r ∈ (create_user db u ph).users, r ∈ db.users ∨ r.is_admin = false) ∧
    (∀ r ∈ (register db u p).2.users, r ∈ db.users ∨ r.is_admin = false) := by
  constructor
  · intro r hr
    simp [create_user] at hr
    rcases hr with hr | hr
    · exact Or.inl hr
    · exact Or.inr (by rw [hr])
  · intro r hr
    by_cases h1 : strip u = "" ∨ p = ""
    · simp [register, h1] at hr
      exact Or.inl hr
    · by_cases h2 : user_exists db (strip u) = true
      · simp [register, h1, h2] at hr
        exact Or.inl hr
      · simp [register, h1, h2, create_user] at hr
        rcases hr with hr | hr
        · exact Or.inl hr
        · exact Or.inr (by rw [hr])

theorem created_users_not_admin_witness :
    ({ id := 1, username := "a", password_hash := "h", is_admin := false } : UserRow)
        ∈ emptyDB.users ∨
      ({ id := 1, username := "a", password_hash := "h", is_admin := false } : UserRow).is_admin
        = false :=
  (created_users_not_admin emptyDB "a" "h" "p").1 _ (by decide)

/-- C10: when the backing media file is absent from the uploads directory,
`remove_post` still deletes the like rows and the post row, skips the
file-removal branch, leaves the filesystem as it was, and raises no
error. -/
theorem remove_post_missing_media_ok (db : DB) (fs : List String)
    (p : PostView) (fail : Bool)
    (h : os_path_exists fs p.image_path = false) :
    remove_post db fs p fail
      = (delete_post_row (delete_likes_of_post db p.id) p.id, fs, false) := by
  simp [remove_post, h]

theorem remove_post_missing_media_ok_witness :
    remove_post likeDB ["other.png"] pv1 true
      = (delete_post_row (delete_likes_of_post likeDB pv1.id) pv1.id, ["other.png"], false) :=
  remove_post_missing_media_ok likeDB ["other.png"] pv1 true (by decide)

/-- C1: `fetch_posts` with the `likes` sort returns a permutation of the
joined rows ordered by like count descending with creation timestamp
descending as tie-break; the ordering relation is total (and the sort is a
deterministic function of the store); on the concrete store with P1
(id 1, 2 likes, older) and P2 (id 2, 3 likes, newer) it returns
exactly [P2, P1]. -/
theorem fetch_posts_byLikes_ordered :
    (∀ db : DB, List.Sorted byLikesLE (fetch_posts db "likes") ∧
      List.Perm (fetch_posts db "likes") (joinRows db)) ∧
    (∀ a b : PostView, byLikesLE a b ∨ byLikesLE b a) ∧
    (fetch_posts likeDB "likes").map (fun v => (v.id, v.like_count)) = [(2, 3), (1, 2)] := by
  refine ⟨fun db => ⟨?_, ?_⟩, fun a b => total_of byLikesLE a b, by decide⟩
  · simpa [fetch_posts] using List.sorted_insertionSort byLikesLE (joinRows db)
  · simpa [fetch_posts] using List.perm_insertionSort byLikesLE (joinRows db)

/-- C4: `remove_post` commits the two row deletions (likes first, then the
post row) before touching the media object; the committed database is the
same whether or not the media removal fails, no like row or post row for
the deleted post survives, and a failing media removal leaves the
filesystem untouched while the database deletions stand. -/
theorem remove_post_commits_before_media (db : DB) (fs : List String)
    (p : PostView) (f1 f2 : Bool) :
    (remove_post db fs p f1).1 = delete_post_row (delete_likes_of_post db p.id) p.id ∧
    (remove_post db fs p f1).1 = (remove_post db fs p f2).1 ∧
    (∀ l ∈ (remove_post db fs p f1).1.likes, l.post_id ≠ p.id) ∧
    (∀ q ∈ (remove_post db fs p f1).1.posts, q.id ≠ p.id) ∧
    (remove_post db fs p true).2.1 = fs := by
  have hdb : ∀ f : Bool, (remove_post db fs p f).1
      = delete_post_row (delete_likes_of_post db p.id) p.id := by
    intro f
    unfold remove_post
    split
    · split
      · rfl
      · rfl
    · rfl
  refine ⟨hdb f1, (hdb f1).trans (hdb f2).symm, ?_, ?_, ?_⟩
  · intro l hl
    rw [hdb f1] at hl
    simp [delete_post_row, delete_likes_of_post, List.mem_filter] at hl
    exact hl.2
  · intro q hq
    rw [hdb f1] at hq
    simp [delete_post_row, delete_likes_of_post, List.mem_filter] at hq
    exact hq.2
  · unfold remove_post
    split
    · rfl
    · rfl

theorem remove_post_commits_before_media_witness : lk3.post_id ≠ pv1.id :=
  (remove_post_commits_before_media likeDB ["a.png"] pv1 true false).2.2.1
    lk3 (by decide)

/-- C8: once `register` has succeeded for a username, registering the same
username again fails with the duplicate-username outcome and leaves the
store exactly as the first call left it. -/
theorem register_duplicate_username (db : DB) (u p : String)
    (h : (register db u p).1 = RegOutcome.created) :
    (register (register db u p).2 u p).1 = RegOutcome.duplicateUsername ∧
    (register (register db u p).2 u p).2 = (register db u p).2 := by
  by_cases h1 : strip u = "" ∨ p = ""
  · simp [register, h1] at h
  · by_cases h2 : user_exists db (strip u) = true
    · simp [register, h1, h2] at h
    · have hdup : user_exists (create_user db (strip u) (generate_password_hash p))
          (strip u) = true := by
        simp [user_exists, create_user, List.any_append]
      simp [register, h1, h2, hdup]

theorem register_duplicate_username_witness :
    (register (register emptyDB "bob" "pw").2 "bob" "pw").1 = RegOutcome.duplicateUsername ∧
    (register (register emptyDB "bob" "pw").2 "bob" "pw").2 = (register emptyDB "bob" "pw").2 :=
  register_duplicate_username emptyDB "bob" "pw" (by decide)

/-- C6: learning the viewer's liked posts is one batch query whose result
contains exactly the post ids the viewer has liked, and annotation marks a
post liked precisely when a like row for (viewer, post id) exists in the
store. -/
theorem annotate_viewer_state_liked_iff (db : DB) (viewer : Nat)
    (posts : List PostView) (hoff : Nat) :
    (∀ pid : Nat, pid ∈ get_user_liked_post_ids db viewer ↔
      ∃ l, l ∈ db.likes ∧ l.user_id = viewer ∧ l.post_id = pid) ∧
    (∀ v ∈ format_posts_for_view posts (get_user_liked_post_ids db viewer) hoff,
      (v.liked = true ↔ ∃ l, l ∈ db.likes ∧ l.user_id = viewer ∧ l.post_id = v.id)) := by
  have hmem : ∀ pid : Nat, pid ∈ get_user_liked_post_ids db viewer ↔
      ∃ l, l ∈ db.likes ∧ l.user_id = viewer ∧ l.post_id = pid := by
    intro pid
    simp only [get_user_liked_post_ids, List.mem_map, List.mem_filter, beq_iff_eq]
    constructor
    · rintro ⟨l, ⟨hl, hu⟩, hp⟩
      exact ⟨l, hl, hu, hp⟩
    · rintro ⟨l, hl, hu, hp⟩
      exact ⟨l, ⟨hl, hu⟩, hp⟩
  refine ⟨hmem, ?_⟩
  intro v hv
  simp only [format_posts_for_view, List.mem_map] at hv
  obtain ⟨row, hrow, hveq⟩ := hv
  subst hveq
  simpa using hmem row.id

/-- The annotated view of post P1 in `likeDB` as seen by viewer 1. -/
def vw1 : ViewPost :=
  { id := 1, image_path := "a.png", caption := "", username := "ana",
    created_at_ist := 19900, like_count := 2, liked := true }

theorem annotate_viewer_state_liked_iff_witness : vw1.liked = true :=
  ((annotate_viewer_state_liked_iff likeDB 1 (joinRows likeDB) 0).2 vw1 (by decide)).mpr
    ⟨{ id := 1, user_id := 1, post_id := 1, created_at := 150 }, by decide, rfl, rfl⟩

/-- Whether a post id resolves through `fetch_post_by_id` is unaffected by
changes to the `likes` table alone. -/
theorem fetch_isSome_of_likes_update (db : DB) (L : List LikeRow) (pid : Nat) :
    (fetch_post_by_id { db with likes := L } pid).isSome
      = (fetch_post_by_id db pid).isSome := by
  unfold fetch_post_by_id postViewOf
  dsimp only
  cases db.posts.find? (fun p => p.id == pid) with
  | none => rfl
  | some p => simp [Option.isSome_map']

/-- Scanning for a row that a preceding filter just dropped finds nothing. -/
theorem any_filter_not {α : Type} (l : List α) (m : α → Bool) :
    (l.filter (fun x => !(m x))).any m = false := by
  simp only [List.any_eq_false, List.mem_filter]
  intro x hx
  rcases hx with ⟨_, hnm⟩
  simp only [Bool.not_eq_true'] at hnm
  simp [hnm]

/-- Two consecutive like toggles restore the stored like state of the
(user, post) pair, whatever it was, provided the post resolves. -/
theorem user_state_after_toggle_toggle (db : DB) (u pid t1 t2 : Nat)
    (hpost : (fetch_post_by_id db pid).isSome = true) :
    user_has_liked (toggle_like (toggle_like db u pid t1).2 u pid t2).2 u pid
      = user_has_liked db u pid := by
  obtain ⟨v, hv⟩ := Option.isSome_iff_exists.mp hpost
  by_cases hl : user_has_liked db u pid = true
  · -- starts liked: first toggle removes all (u, pid) rows, second re-adds one
    have step1 : (toggle_like db u pid t1).2 = remove_like db u pid := by
      simp [toggle_like, hv, hl]
    have hfetch1 : (fetch_post_by_id (remove_like db u pid) pid).isSome = true := by
      unfold remove_like
      rw [fetch_isSome_of_likes_update, hpost]
    obtain ⟨v1, hv1⟩ := Option.isSome_iff_exists.mp hfetch1
    have hl1 : user_has_liked (remove_like db u pid) u pid = false := by
      unfold user_has_liked remove_like
      dsimp only
      exact any_filter_not db.likes _
    have step2 : (toggle_like (remove_like db u pid) u pid t2).2
        = add_like (remove_like db u pid) u pid t2 := by
      simp [toggle_like, hv1, hl1]
    rw [step1, step2, hl]
    unfold add_like
    rw [hl1]
    simp [user_has_liked, List.any_append]
  · -- starts unliked: first toggle appends one row, second deletes it
    have hlf : user_has_liked db u pid = false := by
      simpa using hl
    have step1 : (toggle_like db u pid t1).2 = add_like db u pid t1 := by
      simp [toggle_like, hv, hlf]
    have hadd : add_like db u pid t1 = { db with likes := db.likes ++
        [{ id := nextLikeId db, user_id := u, post_id := pid, created_at := t1 }] } := by
      unfold add_like
      rw [hlf]
      simp
    have hfetch1 : (fetch_post_by_id (add_like db u pid t1) pid).isSome = true := by
      rw [hadd, fetch_isSome_of_likes_update, hpost]
    obtain ⟨v1, hv1⟩ := Option.isSome_iff_exists.mp hfetch1
    have hl1 : user_has_liked (add_like db u pid t1) u pid = true := by
      rw [hadd]
      simp [user_has_liked, List.any_append]
    have step2 : (toggle_like (add_like db u pid t1) u pid t2).2
        = remove_like (add_like db u pid t1) u pid := by
      simp [toggle_like, hv1, hl1]
    rw [step1, step2, hlf]
    unfold user_has_liked remove_like
    dsimp only
    exact any_filter_not _ _

/-- C2: with the post resolvable and the pair (u, pid) initially unliked:
two consecutive toggles restore the like state for any starting state
(first conjunct, quantified over the starting store); a single toggle
reports `liked`, leaves exactly one like row for the pair, and raises the
post's live like count by exactly one; the second toggle reports
`unliked` and returns the store — like rows and like count included —
to exactly its original value. -/
theorem toggle_like_round_trip (db : DB) (u pid t1 t2 : Nat)
    (hpost : (fetch_post_by_id db pid).isSome = true)
    (hun : user_has_liked db u pid = false) :
    (∀ db' : DB, (fetch_post_by_id db' pid).isSome = true →
      user_has_liked (toggle_like (toggle_like db' u pid t1).2 u pid t2).2 u pid
        = user_has_liked db' u pid) ∧
    (toggle_like db u pid t1).1 = ToggleOutcome.nowLiked ∧
    pair_like_rows (toggle_like db u pid t1).2 u pid = 1 ∧
    like_count (toggle_like db u pid t1).2 pid = like_count db pid + 1 ∧
    (toggle_like (toggle_like db u pid t1).2 u pid t2).1 = ToggleOutcome.nowUnliked ∧
    (toggle_like (toggle_like db u pid t1).2 u pid t2).2 = db ∧
    pair_like_rows (toggle_like (toggle_like db u pid t1).2 u pid t2).2 u pid = 0 ∧
    like_count (toggle_like (toggle_like db u pid t1).2 u pid t2).2 pid
      = like_count db pid := by
  obtain ⟨v, hv⟩ := Option.isSome_iff_exists.mp hpost
  have hmatch : ∀ l ∈ db.likes, (l.user_id == u && l.post_id == pid) = false := by
    unfold user_has_liked at hun
    intro l hlmem
    have := List.any_eq_false.mp hun l hlmem
    simpa using this
  have hpairzero : pair_like_rows db u pid = 0 := by
    unfold pair_like_rows
    rw [List.filter_eq_nil_iff.mpr (by intro a ha; simp [hmatch a ha])]
    rfl
  have step1out : (toggle_like db u pid t1).1 = ToggleOutcome.nowLiked := by
    simp [toggle_like, hv, hun]
  have step1 : (toggle_like db u pid t1).2 = add_like db u pid t1 := by
    simp [toggle_like, hv, hun]
  have hadd : add_like db u pid t1 = { db with likes := db.likes ++
      [{ id := nextLikeId db, user_id := u, post_id := pid, created_at := t1 }] } := by
    unfold add_like
    rw [hun]
    simp
  have hfetch1 : (fetch_post_by_id (add_like db u pid t1) pid).isSome = true := by
    rw [hadd, fetch_isSome_of_likes_update, hpost]
  obtain ⟨v1, hv1⟩ := Option.isSome_iff_exists.mp hfetch1
  have hl1 : user_has_liked (add_like db u pid t1) u pid = true := by
    rw [hadd]
    simp [user_has_liked, List.any_append]
  have step2out : (toggle_like (add_like db u pid t1) u pid t2).1
      = ToggleOutcome.nowUnliked := by
    simp [toggle_like, hv1, hl1]
  have hkeep : db.likes.filter
      (fun l => !(l.user_id == u && l.post_id == pid)) = db.likes := by
    rw [List.filter_eq_self]
    intro a ha
    simp [hmatch a ha]
  have step2 : (toggle_like (add_like db u pid t1) u pid t2).2 = db := by
    rw [show (toggle_like (add_like db u pid t1) u pid t2).2
        = remove_like (add_like db u pid t1) u pid by simp [toggle_like, hv1, hl1]]
    rw [hadd]
    unfold remove_like
    dsimp only
    rw [List.filter_append, hkeep]
    simp
  refine ⟨fun db' h => user_state_after_toggle_toggle db' u pid t1 t2 h,
    step1out, ?_, ?_, ?_, ?_, ?_, ?_⟩
  · rw [step1, hadd]
    unfold pair_like_rows at hpairzero ⊢
    dsimp only
    rw [List.filter_append]
    simp only [List.length_append, hpairzero]
    simp
  · rw [step1, hadd]
    unfold like_count
    dsimp only
    rw [List.filter_append]
    simp
  · rw [step1]
    exact step2out
  · rw [step1]
    exact step2
  · rw [step1, step2]
    exact hpairzero
  · rw [step1, step2]

theorem toggle_like_round_trip_witness :
    pair_like_rows (toggle_like likeDB 5 1 300).2 5 1 = 1 ∧
    like_count (toggle_like likeDB 5 1 300).2 1 = like_count likeDB 1 + 1 ∧
    (toggle_like (toggle_like likeDB 5 1 300).2 5 1 400).2 = likeDB :=
  ⟨(toggle_like_round_trip likeDB 5 1 300 400 (by decide) (by decide)).2.2.1,
   (toggle_like_round_trip likeDB 5 1 300 400 (by decide) (by decide)).2.2.2.1,
   (toggle_like_round_trip likeDB 5 1 300 400 (by decide) (by decide)).2.2.2.2.2.1⟩

end DSGNR
